import Mathlib

/-!
Verification development for the physprep trigger/volume reconciliation code
(physprep/prepare/get_info.py).  The Python functions order_channels,
volume_counter and get_info are shallowly embedded as executable Lean
definitions; filesystem access and the acq-file reader are abstracted into
explicit input data (a list of decoded files per session), floats are
modelled as exact rationals, and Python exceptions are modelled with Except.
-/

set_option autoImplicit false

deriving instance DecidableEq for Except

namespace Physprep

/-! ### Python primitives -/

/-- Python built-in round for a real value: round half to even
(the behaviour of round(x) on a float, modelled over exact rationals). -/
def roundHalfEven (q : ℚ) : ℤ :=
  let n := ⌊q⌋
  if q - (n : ℚ) < 1 / 2 then n
  else if (1 : ℚ) / 2 < q - (n : ℚ) then n + 1
  else if n % 2 = 0 then n else n + 1

/-- Python exceptions that the embedded code can raise. -/
inductive PyErr where
  | valueError (msg : String)
  | keyError
  | typeError
  | nameError
deriving DecidableEq

/-! ### Run Segmenter core (volume_counter, get_info.py lines 109-181)

The per-file computation of volume_counter is pure once the decoded
trigger column, the sampling rate fs and the repetition time tr are given.
-/

/-- Sample indices whose trigger value exceeds the threshold 4
(get_info.py line 117: values over 4, then line 121 takes the row index). -/
def pulseIndices (col : List ℚ) : List ℕ :=
  (col.enum.filter (fun p => 4 < p.2)).map Prod.fst

/-- Maximal inter-pulse window, get_info.py line 126:
tr_period = fs * math.ceil(tr). -/
def trPeriod (fs tr : ℚ) : ℚ := fs * ((⌈tr⌉ : ℤ) : ℚ)

/-- Loop body of get_info.py lines 141-152: walk adjacent pulse pairs,
keeping the pairs whose index gap exceeds the window. -/
def parseListAux (w : ℚ) : ℕ → List ℕ → List (ℕ × ℕ)
  | _, [] => []
  | prev, x :: xs =>
    (if w < (x : ℚ) - (prev : ℚ) then [(prev, x)] else []) ++ parseListAux w x xs

/-- parse_list of get_info.py lines 138-152. -/
def parse_list (session : List ℕ) (w : ℚ) : List (ℕ × ℕ) :=
  match session with
  | [] => []
  | x :: xs => parseListAux w x xs

/-- Spec-side formulation of the run boundaries (spec section 4.2 step 3):
all pairs of temporally-adjacent pulse events whose gap exceeds the window. -/
def specBoundaries (session : List ℕ) (w : ℚ) : List (ℕ × ℕ) :=
  (session.zip session.tail).filter (fun p => w < (p.2 : ℚ) - (p.1 : ℚ))

/-- Loop of get_info.py lines 168-173: after the first block, each boundary
pair contributes the run (parse_list i end, parse_list (i+1) start), the
final one reaching to the last pulse event. -/
def runsFrom (e : ℕ) : List (ℕ × ℕ) → List (ℕ × ℕ)
  | [] => []
  | [p] => [(p.2, e)]
  | p :: q :: rest => (p.2, q.1) :: runsFrom e (q :: rest)

/-- Spec-side formulation of the run segments (spec section 4.2 step 5):
first run starts at the first pulse event, consecutive runs are joined as
(boundary end of run i, boundary start of run i+1) pairs, and the last run
ends at the last pulse event. -/
def specSegments (first lastE : ℕ) (bds : List (ℕ × ℕ)) : List (ℕ × ℕ) :=
  (first :: bds.map Prod.snd).zip (bds.map Prod.fst ++ [lastE])

/-- Per-run count of get_info.py line 177:
round(((end - start) / fs) / tr) + 1. -/
def countOf (fs tr : ℚ) (p : ℕ × ℕ) : ℤ :=
  roundHalfEven (((p.2 : ℚ) - (p.1 : ℚ)) / fs / tr) + 1

/-- One per-file entry of the ses_runs value: the no-boundary branch stores
a bare int (line 154), the boundary branch stores the list of counts
(lines 164-177). -/
inductive Entry where
  | int (n : ℤ)
  | list (ns : List ℤ)
deriving DecidableEq

/-- The per-file segmentation of get_info.py lines 128-177, given the pulse
event indices of one file.  Returns none on the empty-session early return
(lines 129-134). -/
def fileRuns (session : List ℕ) (fs tr : ℚ) : Option Entry :=
  match session with
  | [] => none
  | s0 :: rest =>
    let e := (s0 :: rest).getLastD 0
    let pl := parse_list (s0 :: rest) (trPeriod fs tr)
    if pl.length = 0 then
      some (Entry.int (roundHalfEven (((e : ℚ) - (s0 : ℚ)) / fs / tr + 1)))
    else
      some (Entry.list (((s0, pl.headI.1) :: runsFrom e pl).map (countOf fs tr)))

/-! ### Lemmas relating the loop-shaped code to the spec-shaped formulas -/

theorem parseListAux_eq (w : ℚ) (prev : ℕ) (xs : List ℕ) :
    parseListAux w prev xs = specBoundaries (prev :: xs) w := by
  induction xs generalizing prev with
  | nil => rfl
  | cons x rest ih =>
    unfold parseListAux specBoundaries
    simp only [List.tail_cons, List.zip_cons_cons, List.filter_cons]
    rw [ih x]
    unfold specBoundaries
    by_cases h : w < (x : ℚ) - (prev : ℚ) <;> simp [h]

theorem parse_list_eq_specBoundaries (session : List ℕ) (w : ℚ) :
    parse_list session w = specBoundaries session w := by
  cases session with
  | nil => rfl
  | cons x xs => exact parseListAux_eq w x xs

theorem runsFrom_eq (e : ℕ) (bds : List (ℕ × ℕ)) (first : ℕ) (h : bds ≠ []) :
    (first, bds.headI.1) :: runsFrom e bds = specSegments first e bds := by
  induction bds generalizing first with
  | nil => exact absurd rfl h
  | cons p rest ih =>
    cases rest with
    | nil => rfl
    | cons q rest2 =>
      have hr : (q :: rest2) ≠ [] := List.cons_ne_nil q rest2
      have := ih p.2 hr
      unfold specSegments at this ⊢
      simp only [List.headI, runsFrom, List.map_cons, List.cons_append,
        List.zip_cons_cons] at this ⊢
      rw [this]

theorem specSegments_length (first lastE : ℕ) (bds : List (ℕ × ℕ)) :
    (specSegments first lastE bds).length = bds.length + 1 := by
  unfold specSegments
  simp [Nat.add_comm]

/-! ### Claim C1 -/

/-- C1: for every trigger pulse-event sequence, the Run Segmenter places a
run boundary exactly at each pair of temporally-adjacent pulse events whose
index gap exceeds fs * ceil(tr); when k >= 1 boundaries exist it produces
exactly k + 1 run counts, the segments being the spec-side construction
(first run starts at the first pulse event, consecutive runs joined as
(boundary end, next boundary start) pairs, last run ends at the last pulse
event), and each count equals roundHalfEven((end - start) / fs / tr) + 1. -/
theorem c1_run_segmentation (s0 : ℕ) (rest : List ℕ) (fs tr : ℚ)
    (hk : 1 ≤ (parse_list (s0 :: rest) (trPeriod fs tr)).length) :
    parse_list (s0 :: rest) (trPeriod fs tr)
      = specBoundaries (s0 :: rest) (trPeriod fs tr) ∧
    fileRuns (s0 :: rest) fs tr =
      some (Entry.list
        ((specSegments s0 ((s0 :: rest).getLastD 0)
            (parse_list (s0 :: rest) (trPeriod fs tr))).map (countOf fs tr))) ∧
    (specSegments s0 ((s0 :: rest).getLastD 0)
        (parse_list (s0 :: rest) (trPeriod fs tr))).length
      = (parse_list (s0 :: rest) (trPeriod fs tr)).length + 1 := by
  refine ⟨parse_list_eq_specBoundaries _ _, ?_, specSegments_length _ _ _⟩
  have hlen : (parse_list (s0 :: rest) (trPeriod fs tr)).length ≠ 0 :=
    Nat.pos_iff_ne_zero.mp hk
  have hne : parse_list (s0 :: rest) (trPeriod fs tr) ≠ [] := by
    intro h
    exact hlen (by rw [h]; rfl)
  simp only [fileRuns]
  rw [if_neg hlen,
    runsFrom_eq ((s0 :: rest).getLastD 0) (parse_list (s0 :: rest) (trPeriod fs tr)) s0 hne]

/-- C1 witness: the end-to-end scenario of the spec, sampling rate 1000 Hz,
TR = 1.49 s, pulses at the listed samples: one boundary, two runs with
counts 4 and 3. -/
theorem c1_run_segmentation_witness :
    1 ≤ (parse_list [0, 1490, 2980, 4470, 20000, 21490, 22980]
          (trPeriod 1000 (149 / 100))).length ∧
    fileRuns [0, 1490, 2980, 4470, 20000, 21490, 22980] 1000 (149 / 100)
      = some (Entry.list [4, 3]) := by
  have hc : (⌈(149 : ℚ) / 100⌉ : ℤ) = 2 := by
    rw [Int.ceil_eq_iff]
    norm_num
  have hk : 1 ≤ (parse_list [0, 1490, 2980, 4470, 20000, 21490, 22980]
      (trPeriod 1000 (149 / 100))).length := by
    norm_num [parse_list, parseListAux, trPeriod, hc]
  refine ⟨hk, ?_⟩
  have h := (c1_run_segmentation 0 [1490, 2980, 4470, 20000, 21490, 22980]
    1000 (149 / 100) hk).2.1
  rw [h]
  norm_num [parse_list, parseListAux, trPeriod, hc, specSegments, countOf,
    roundHalfEven, Int.fract]

/-! ### Claim C2 -/

/-- C2 counterexample: pulses at samples 0 and 1 with fs = 2, tr = 1 have
no inter-pulse gap larger than fs * ceil(tr) = 2; the code computes the
single-run count as round((1 - 0) / 2 / 1 + 1) = round(3/2) = 2, while the
claim's formula round((1 - 0) / 2 / 1) + 1 (half-to-even rounding applied
before adding 1) yields 0 + 1 = 1. -/
theorem c2_single_run_counterexample :
    parse_list [0, 1] (trPeriod 2 1) = [] ∧
    fileRuns [0, 1] 2 1 = some (Entry.int 2) ∧
    roundHalfEven (((1 : ℚ) - 0) / 2 / 1) + 1 = 1 := by
  norm_num [parse_list, parseListAux, trPeriod, fileRuns, roundHalfEven, Int.fract]

/-- C2 amended: when no inter-pulse gap exceeds fs * ceil(tr), the Run
Segmenter returns exactly one run whose count is
roundHalfEven((last_event - first_event) / fs / tr + 1): half-to-even
rounding is applied after adding 1, not before. -/
theorem c2_single_run_amended (s0 : ℕ) (rest : List ℕ) (fs tr : ℚ)
    (h : parse_list (s0 :: rest) (trPeriod fs tr) = []) :
    fileRuns (s0 :: rest) fs tr =
      some (Entry.int (roundHalfEven
        (((((s0 :: rest).getLastD 0 : ℕ) : ℚ) - (s0 : ℚ)) / fs / tr + 1))) := by
  simp [fileRuns, h]

/-- C2 amended witness: the counterexample input, via the amended theorem. -/
theorem c2_single_run_amended_witness :
    parse_list [0, 1] (trPeriod 2 1) = [] ∧
    fileRuns [0, 1] 2 1 =
      some (Entry.int (roundHalfEven
        (((((0 :: [1] : List ℕ).getLastD 0 : ℕ) : ℚ) - ((0 : ℕ) : ℚ)) / 2 / 1 + 1))) :=
  have h : parse_list [0, 1] (trPeriod 2 1) = [] := by
    norm_num [parse_list, parseListAux, trPeriod]
  ⟨h, c2_single_run_amended 0 [1] 2 1 h⟩

/-! ### Channel Mapper (order_channels, get_info.py lines 22-56)

The workflow configuration metadata_physio is modelled as an association
list (role key, expected raw channel label) in Python dict insertion order.
-/

/-- Role keys whose configured Channel label equals the given raw channel,
in configuration order (the inner loop of get_info.py lines 37-41). -/
def matchesOf (metadata : List (String × String)) (c : String) : List String :=
  (metadata.filter (fun kv => kv.2 == c)).map Prod.fst

/-- The channel loop of get_info.py lines 33-43, building ch_names and
chsel; idx is the 0-based enumerate counter, chsel records idx + 1 once per
matching role key, and an unmatched channel keeps its own label. -/
def orderAux (metadata : List (String × String)) :
    List String → ℕ → List String × List ℕ
  | [], _ => ([], [])
  | c :: cs, idx =>
    let ms := matchesOf metadata c
    let r := orderAux metadata cs (idx + 1)
    if ms.isEmpty then (c :: r.1, r.2)
    else (ms ++ r.1, ms.map (fun _ => idx + 1) ++ r.2)

/-- Error message of get_info.py lines 46-49. -/
def noMatchMsg : String :=
  "No correspondence between channels in the acq file and channels defined in workflow configuration file."

/-- Error message of get_info.py lines 51-54. -/
def incompleteMsg : String :=
  "Some channels defined in the workflow configuration file are not present in the acq file."

/-- order_channels of get_info.py lines 22-56. -/
def order_channels (acq : List String) (metadata : List (String × String)) :
    Except String (List String × List ℕ) :=
  let r := orderAux metadata acq 0
  if r.2.length = 0 then Except.error noMatchMsg
  else if metadata.length ≠ r.2.length then Except.error incompleteMsg
  else Except.ok r

/-- Total number of (raw channel, configured role) matching pairs. -/
def totalMatches (acq : List String) (metadata : List (String × String)) : ℕ :=
  (acq.map (fun c => (matchesOf metadata c).length)).sum

/-- Number of raw channels matching at least one configured role. -/
def matchedChannels (acq : List String) (metadata : List (String × String)) : ℕ :=
  (acq.filter (fun c => !(matchesOf metadata c).isEmpty)).length

theorem orderAux_names (metadata : List (String × String)) (acq : List String)
    (idx : ℕ) (hu : ∀ c ∈ acq, (matchesOf metadata c).length ≤ 1) :
    (orderAux metadata acq idx).1
      = acq.map (fun c => (matchesOf metadata c).headD c) := by
  induction acq generalizing idx with
  | nil => rfl
  | cons c cs ih =>
    have hc := hu c (List.mem_cons_self c cs)
    have hcs : ∀ x ∈ cs, (matchesOf metadata x).length ≤ 1 :=
      fun x hx => hu x (List.mem_cons_of_mem c hx)
    match hms : matchesOf metadata c with
    | [] => simp [orderAux, hms, ih (idx + 1) hcs]
    | [k] => simp [orderAux, hms, ih (idx + 1) hcs]
    | k1 :: k2 :: t => rw [hms] at hc; simp at hc

theorem orderAux_chsel (metadata : List (String × String)) (acq : List String)
    (idx : ℕ) (hu : ∀ c ∈ acq, (matchesOf metadata c).length ≤ 1) :
    (orderAux metadata acq idx).2
      = (List.enumFrom idx acq).filterMap
          (fun p => if (matchesOf metadata p.2).isEmpty then none
                    else some (p.1 + 1)) := by
  induction acq generalizing idx with
  | nil => rfl
  | cons c cs ih =>
    have hc := hu c (List.mem_cons_self c cs)
    have hcs : ∀ x ∈ cs, (matchesOf metadata x).length ≤ 1 :=
      fun x hx => hu x (List.mem_cons_of_mem c hx)
    match hms : matchesOf metadata c with
    | [] => simp [orderAux, hms, List.enumFrom, ih (idx + 1) hcs]
    | [k] => simp [orderAux, hms, List.enumFrom, ih (idx + 1) hcs]
    | k1 :: k2 :: t => rw [hms] at hc; simp at hc

theorem orderAux_chsel_length (metadata : List (String × String))
    (acq : List String) (idx : ℕ) :
    (orderAux metadata acq idx).2.length = totalMatches acq metadata := by
  induction acq generalizing idx with
  | nil => rfl
  | cons c cs ih =>
    by_cases h : (matchesOf metadata c).isEmpty
    · simp [orderAux, h, totalMatches, ih (idx + 1), List.isEmpty_iff.mp h]
    · simp [orderAux, h, totalMatches, ih (idx + 1)]

theorem sum_map_add {α : Type} (l : List α) (f g : α → ℕ) :
    (l.map (fun x => f x + g x)).sum = (l.map f).sum + (l.map g).sum := by
  induction l with
  | nil => rfl
  | cons a t ih => simp [ih]; omega

theorem sum_map_ite {α : Type} (l : List α) (p : α → Bool) :
    (l.map (fun x => if p x then 1 else 0)).sum = (l.filter p).length := by
  induction l with
  | nil => rfl
  | cons a t ih =>
    by_cases h : p a
    · simp [List.filter_cons, h, ih]
      omega
    · simp [List.filter_cons, h, ih]

theorem sum_map_one {α : Type} (l : List α) (f : α → ℕ)
    (h : ∀ x ∈ l, f x = 1) : (l.map f).sum = l.length := by
  induction l with
  | nil => rfl
  | cons a t ih =>
    simp [h a (List.mem_cons_self a t),
      ih (fun x hx => h x (List.mem_cons_of_mem a hx))]
    omega

/-- Double counting: the total number of matching pairs equals the sum over
configured roles of the number of raw channels carrying that role's label. -/
theorem totalMatches_swap (acq : List String) (metadata : List (String × String)) :
    totalMatches acq metadata = (metadata.map (fun kv => acq.count kv.2)).sum := by
  induction acq with
  | nil => simp [totalMatches, List.count_nil]
  | cons c cs ih =>
    have hcnt : (metadata.map (fun kv => (c :: cs).count kv.2)).sum
        = (metadata.map (fun kv => cs.count kv.2 + if kv.2 == c then 1 else 0)).sum := by
      congr 1
      apply List.map_congr_left
      intro kv _
      rw [List.count_cons]
      by_cases hc2 : c = kv.2
      · subst hc2; rfl
      · simp [hc2, Ne.symm hc2]
    rw [hcnt, sum_map_add, sum_map_ite metadata (fun kv => kv.2 == c), ← ih]
    simp [totalMatches, matchesOf]
    omega

/-! ### Claim C7 -/

/-- C7: the Channel Mapper is deterministic and order-preserving.  When each
raw channel matches at most one configured role, the output label list
renames every matched channel to its role key and keeps every unmatched
channel's own label, in raw-list order with none dropped, and the selection
list holds the 1-based position of each matched channel in raw order; in
particular raw labels TTL, PPG, RSP with trigger mapped to TTL and cardiac
mapped to PPG give (trigger, cardiac, RSP) with indices (1, 2). -/
theorem c7_channel_mapper (acq : List String) (metadata : List (String × String))
    (hu : ∀ c ∈ acq, (matchesOf metadata c).length ≤ 1) :
    (orderAux metadata acq 0).1
      = acq.map (fun c => (matchesOf metadata c).headD c) ∧
    (orderAux metadata acq 0).2
      = (List.enumFrom 0 acq).filterMap
          (fun p => if (matchesOf metadata p.2).isEmpty then none
                    else some (p.1 + 1)) ∧
    order_channels ["TTL", "PPG", "RSP"] [("trigger", "TTL"), ("cardiac", "PPG")]
      = Except.ok (["trigger", "cardiac", "RSP"], [1, 2]) :=
  ⟨orderAux_names metadata acq 0 hu, orderAux_chsel metadata acq 0 hu, by decide⟩

/-- C7 witness: the spec's concrete instance satisfies the at-most-one-match
hypothesis and the renaming equation. -/
theorem c7_channel_mapper_witness :
    (∀ c ∈ ["TTL", "PPG", "RSP"],
      (matchesOf [("trigger", "TTL"), ("cardiac", "PPG")] c).length ≤ 1) ∧
    (orderAux [("trigger", "TTL"), ("cardiac", "PPG")] ["TTL", "PPG", "RSP"] 0).1
      = ["TTL", "PPG", "RSP"].map
          (fun c => (matchesOf [("trigger", "TTL"), ("cardiac", "PPG")] c).headD c) :=
  ⟨by decide,
    (c7_channel_mapper ["TTL", "PPG", "RSP"] [("trigger", "TTL"), ("cardiac", "PPG")]
      (by decide)).1⟩

/-! ### Claim C8 -/

/-- C8 counterexample: with raw channels (A, A) and the single configured
role r1 expecting A, the number of matched channels is 2, which is not
smaller than the number of configured roles (1), yet order_channels raises
the incomplete-match error — the claimed iff fails. -/
theorem c8_incomplete_match_counterexample :
    order_channels ["A", "A"] [("r1", "A")] = Except.error incompleteMsg ∧
    matchedChannels ["A", "A"] [("r1", "A")] = 2 ∧ ¬ (2 < 1) := by
  refine ⟨by decide, by decide, by omega⟩

/-- C8 amended: when at least one (channel, role) match exists, the
incomplete-match error is raised iff the total number of matching pairs
(counted with multiplicity) differs from the number of configured roles;
when every configured role is matched by exactly one raw channel,
order_channels returns normally. -/
theorem c8_incomplete_match_amended (acq : List String)
    (metadata : List (String × String)) (h1 : 0 < totalMatches acq metadata) :
    (order_channels acq metadata = Except.error incompleteMsg ↔
      totalMatches acq metadata ≠ metadata.length) ∧
    ((∀ kv ∈ metadata, acq.count kv.2 = 1) →
      order_channels acq metadata = Except.ok (orderAux metadata acq 0)) := by
  have hlen : (orderAux metadata acq 0).2.length = totalMatches acq metadata :=
    orderAux_chsel_length metadata acq 0
  have hne2 : ¬ totalMatches acq metadata = 0 := by omega
  constructor
  · by_cases hc : metadata.length = totalMatches acq metadata
    · simp only [order_channels, hlen, if_neg hne2,
        if_neg (fun h : metadata.length ≠ totalMatches acq metadata => h hc)]
      simp [hc]
    · simp only [order_channels, hlen, if_neg hne2, if_pos hc]
      simpa using fun h2 : totalMatches acq metadata = metadata.length => hc h2.symm
  · intro h
    have htot : totalMatches acq metadata = metadata.length := by
      rw [totalMatches_swap]
      exact sum_map_one metadata (fun kv => acq.count kv.2) h
    simp only [order_channels, hlen, if_neg hne2,
      if_neg (fun hh : metadata.length ≠ totalMatches acq metadata => hh htot.symm)]

/-- C8 amended witness: a single channel TTL matching the single configured
role succeeds. -/
theorem c8_incomplete_match_amended_witness :
    0 < totalMatches ["TTL"] [("trigger", "TTL")] ∧
    order_channels ["TTL"] [("trigger", "TTL")]
      = Except.ok (orderAux [("trigger", "TTL")] ["TTL"] 0) :=
  ⟨by decide,
    (c8_incomplete_match_amended ["TTL"] [("trigger", "TTL")] (by decide)).2 (by decide)⟩

/-! ### Claim C9 -/

/-- C9 counterexample: the single raw channel A matches both configured
roles r1 and r2, an ambiguous match, yet order_channels returns a mapping
(with a duplicated selection index) instead of raising an error. -/
theorem c9_ambiguous_match_counterexample :
    order_channels ["A"] [("r1", "A"), ("r2", "A")]
      = Except.ok (["r1", "r2"], [1, 1]) := by decide

/-- C9 amended: ambiguity is not detected as such — a raw channel matching
several configured roles only raises an error when the total match count
differs from the role count; when a single raw channel matches both (and
only) configured roles, order_channels returns both role names for that one
channel with the duplicated selection index 1. -/
theorem c9_ambiguous_match_amended (c r1 r2 : String) :
    order_channels [c] [(r1, c), (r2, c)] = Except.ok ([r1, r2], [1, 1]) := by
  simp [order_channels, orderAux, matchesOf, List.filter_cons]

/-! ### volume_counter over one session (get_info.py lines 59-186) -/

/-- One decoded acq file: the output of read_acqknowledge, a labeled table
of channel traces plus the sampling rate, floats as exact rationals. -/
structure AcqData where
  columns : List String
  channels : List (List ℚ)
  fs : ℚ
deriving DecidableEq

/-- Message of the ValueError raised by a failed Python list.index call
(get_info.py line 115 when no TTL column exists). -/
def ttlErrMsg : String := "is not in list"

/-- Message of the ValueError raised by unpacking the 2-tuple return of
get_info.py line 133 into the three variables of line 361. -/
def unpackErrMsg : String := "not enough values to unpack"

/-- TTL fallback of get_info.py line 115: list(bio_df.columns).index("TTL"),
a ValueError when no column is labeled TTL. -/
def ttlFallback (cols : List String) : Except PyErr ℕ :=
  if cols.contains "TTL" then Except.ok (cols.indexOf "TTL")
  else Except.error (PyErr.valueError ttlErrMsg)

/-- Trigger-channel index selection of get_info.py lines 110-116: use the
configured name when it is one of the columns (None never is), otherwise
fall back to the channel literally labeled TTL. -/
def findTriggerIndex (cols : List String) (trig : Option String) :
    Except PyErr ℕ :=
  match trig with
  | some t =>
    if cols.contains t then Except.ok (cols.indexOf t) else ttlFallback cols
  | none => ttlFallback cols

/-- The ses_runs update of get_info.py lines 153-158 and 178-181: the first
file creates the session's list; a later single-run file appends its count
wrapped in a one-element list, a later multi-run file appends its count
list. -/
def appendEntry (cur : Option (List Entry)) (e : Entry) : List Entry :=
  match cur with
  | none => [e]
  | some es =>
    match e with
    | Entry.int n => es ++ [Entry.list [n]]
    | Entry.list ns => es ++ [Entry.list ns]

/-- Outcome of the file loop of volume_counter: either the early 2-tuple
return of line 133, or loop completion with the accumulated session entry
list and the columns of the last file read (the Python bio_df leaks out of
the loop into line 183). -/
inductive LoopOut where
  | early (cols : List String)
  | done (entries : Option (List Entry)) (lastCols : Option (List String))
deriving DecidableEq

/-- The file loop of get_info.py lines 103-181 for one session: each file
is read, the trigger column located (a ValueError propagates), its pulse
indices computed and segmented; an empty pulse list returns early,
otherwise the session's entry list is extended. -/
def vcLoop (tr : ℚ) (trig : Option String) :
    List AcqData → Option (List Entry) → Option (List String) →
    Except PyErr LoopOut
  | [], acc, lastCols => Except.ok (LoopOut.done acc lastCols)
  | f :: files, acc, _ =>
    match findTriggerIndex f.columns trig with
    | Except.error e => Except.error e
    | Except.ok ti =>
      match fileRuns (pulseIndices (f.channels.getD ti [])) f.fs tr with
      | none => Except.ok (LoopOut.early f.columns)
      | some e => vcLoop tr trig files (some (appendEntry acc e)) (some f.columns)

/-- Result of volume_counter as get_info sees it: either the 2-tuple
placeholder return of line 133, or the normal 3-tuple of line 186 whose
first component is ses_runs[exp] (none when the key was never created). -/
inductive VCResult where
  | noTrigger (cols : List String)
  | counted (entries : Option (List Entry)) (ch_names : List String)
      (chsel : List ℕ)
deriving DecidableEq

/-- volume_counter of get_info.py lines 59-186 for the single session that
get_info invokes it on (ses=exp), the directory listing abstracted to the
session's decoded files in sorted order.  After the loop, order_channels
runs on the last file's columns; its ValueError propagates, and with no
file at all the Python code hits an unbound bio_df (NameError). -/
def volume_counter (files : List AcqData) (metadata : List (String × String))
    (tr : ℚ) (trig : Option String) : Except PyErr VCResult :=
  match vcLoop tr trig files none none with
  | Except.error e => Except.error e
  | Except.ok (LoopOut.early cols) => Except.ok (VCResult.noTrigger cols)
  | Except.ok (LoopOut.done acc lastCols) =>
    match lastCols with
    | none => Except.error PyErr.nameError
    | some cols =>
      match order_channels cols metadata with
      | Except.error msg => Except.error (PyErr.valueError msg)
      | Except.ok r => Except.ok (VCResult.counted acc r.1 r.2)

/-! ### get_info (get_info.py lines 189-402) -/

/-- One run's imaging sidecar as read in get_info.py lines 303-311: its
RepetitionTime and, when the dcmmeta_shape key is present, that list's
last element (the expected volume count). -/
structure BoldMeta where
  tr : ℚ
  dcmmeta : Option ℤ
deriving DecidableEq

/-- Abstracted input for one session of get_info: the session name, the
decoded acq files (ses_info[exp], empty meaning no acq file was found),
the sorted bold sidecars (matches, after the magnitude-file filtering),
and whether the physio source file exists (the isfile check of line 353). -/
structure SessionInput where
  name : String
  acqFiles : List AcqData
  bolds : List BoldMeta
  physFileExists : Bool
deriving DecidableEq

/-- Two-digit ordinal formatting, the Python f-string 02d format. -/
def fmt2 (n : ℕ) : String :=
  if n < 10 then "0" ++ toString n else toString n

/-- The sidecar loop of get_info.py lines 295-326 restricted to the
expected-volume map: a run whose sidecar carries the volume count stores
it under the two-digit ordinal of line 311; one without it consults the
scanning sheet when configured (the pandas row lookup abstracted to an
index-to-count oracle, line 322) and otherwise logs and continues,
recording nothing for that ordinal (lines 324-326). -/
def expectedVolumesAux (sheet : Option (ℕ → ℤ)) :
    List BoldMeta → ℕ → List (String × ℤ)
  | [], _ => []
  | b :: bs, idx =>
    match b.dcmmeta with
    | some v => (fmt2 (idx + 1), v) :: expectedVolumesAux sheet bs (idx + 1)
    | none =>
      match sheet with
      | some lookup =>
        (fmt2 (idx + 1), lookup idx) :: expectedVolumesAux sheet bs (idx + 1)
      | none => expectedVolumesAux sheet bs (idx + 1)

/-- The recorded_triggers report value. -/
inductive Recorded where
  | dict (m : List (String × Entry))
  | placeholder (s : String)
deriving DecidableEq

/-- One session's slice of the report (get_info.py lines 333-390).  The
task and in_file bookkeeping fields play no part in the claims and are
omitted; recorded, ch_names and chsel are none when the corresponding keys
were never set. -/
structure SessionReport where
  vols : List (String × ℤ)
  expected_runs : ℕ
  tr : ℚ
  recorded : Option Recorded
  ch_names : Option (List String)
  chsel : Option (List ℕ)
deriving DecidableEq

/-- RepetitionTime in scope after the sidecar loop: line 308 reassigns tr
on every iteration, so the last sidecar's value survives. -/
def trOf (bolds : List BoldMeta) : ℚ :=
  (bolds.getLastD { tr := 0, dcmmeta := none }).tr

/-- run_dict construction of get_info.py lines 370-372: one key per
element of ses_runs[exp], keyed run-NN in order. -/
def buildRunDict (entries : List Entry) : List (String × Entry) :=
  entries.enum.map (fun p => ("run-" ++ fmt2 (p.1 + 1), p.2))

/-- The session report fields set before volume counting (lines 333-339). -/
def sessionBase (sheet : Option (ℕ → ℤ)) (s : SessionInput) : SessionReport :=
  { vols := expectedVolumesAux sheet s.bolds 0
    expected_runs := s.bolds.length
    tr := trOf s.bolds
    recorded := none
    ch_names := none
    chsel := none }

/-- The count_vol block of get_info.py lines 347-390 for one session.  A
missing physio file leaves recorded_triggers unset.  The volume_counter
result is unpacked into three variables, so the 2-tuple placeholder return
raises ValueError, which neither handler catches (lines 381 and 383 catch
KeyError only) and the exception propagates.  An absent ses_runs key
(counted none) raises KeyError at line 371, caught at line 381, skipping
the session's trigger fields; any other exception from volume_counter
propagates.  The outer line-383 KeyError handler (recorded_triggers set to
"No triggers found") is unreachable from the modelled inputs, since every
KeyError arises inside the inner try. -/
def countVol (metadata : List (String × String)) (trig : Option String)
    (s : SessionInput) (base : SessionReport) : Except PyErr SessionReport :=
  if s.physFileExists = false then Except.ok base
  else
    match volume_counter s.acqFiles metadata (trOf s.bolds) trig with
    | Except.error PyErr.keyError => Except.ok base
    | Except.error e => Except.error e
    | Except.ok (VCResult.noTrigger _) =>
      Except.error (PyErr.valueError unpackErrMsg)
    | Except.ok (VCResult.counted none _ _) => Except.ok base
    | Except.ok (VCResult.counted (some es) ns sel) =>
      Except.ok { base with
        recorded := some (Recorded.dict (buildRunDict es))
        ch_names := some ns
        chsel := some sel }

/-- One iteration of the session loop of get_info.py lines 271-391:
sessions without acq files or without sidecar matches are skipped
(continue, lines 275-277 and 287-289); otherwise the session's report
slice is assembled and, when volume counting is on, extended by the
count_vol block. -/
def sessionStep (metadata : List (String × String)) (sheet : Option (ℕ → ℤ))
    (count_vol : Bool) (trig : Option String) (s : SessionInput) :
    Except PyErr (Option (String × SessionReport)) :=
  if s.acqFiles.isEmpty then Except.ok none
  else if s.bolds.isEmpty then Except.ok none
  else
    let base := sessionBase sheet s
    if count_vol then
      match countVol metadata trig s base with
      | Except.error e => Except.error e
      | Except.ok r => Except.ok (some (s.name, r))
    else Except.ok (some (s.name, base))

/-- get_info of get_info.py lines 189-402, abstracted to its session loop:
an exception escaping one session's processing aborts the whole subject
pass (the Python function never returns its dictionary then); otherwise
the per-session report slices accumulate in session order. -/
def get_info (sessions : List SessionInput) (metadata : List (String × String))
    (count_vol : Bool) (sheet : Option (ℕ → ℤ)) (trig : Option String) :
    Except PyErr (List (String × SessionReport)) :=
  match sessions with
  | [] => Except.ok []
  | s :: rest =>
    match sessionStep metadata sheet count_vol trig s with
    | Except.error e => Except.error e
    | Except.ok o =>
      match get_info rest metadata count_vol sheet trig with
      | Except.error e => Except.error e
      | Except.ok tail =>
        Except.ok (match o with | none => tail | some entry => entry :: tail)

/-! ### Claim C10 -/

/-- C10: when the configured trigger-channel name is not among the
recording's columns (in particular when get_info passes trigger_ch = None,
its default), volume_counter's channel lookup silently falls back to the
channel literally labeled TTL, and raises the ValueError of a failed
list.index call exactly when no TTL column exists either. -/
theorem c10_trigger_fallback (cols : List String) (trig : Option String)
    (h : ∀ t, trig = some t → cols.contains t = false) :
    (cols.contains "TTL" = true →
      findTriggerIndex cols trig = Except.ok (cols.indexOf "TTL")) ∧
    (cols.contains "TTL" = false →
      findTriggerIndex cols trig = Except.error (PyErr.valueError ttlErrMsg)) := by
  have h2 : ∀ t, trig = some t → t ∉ cols := by
    intro t ht
    simpa using h t ht
  constructor
  · intro hm
    have hmem : "TTL" ∈ cols := by simpa using hm
    cases trig with
    | none => simp [findTriggerIndex, ttlFallback, hmem]
    | some t => simp [findTriggerIndex, ttlFallback, hmem, h2 t rfl]
  · intro hm
    have hmem : "TTL" ∉ cols := by simpa using hm
    cases trig with
    | none => simp [findTriggerIndex, ttlFallback, hmem]
    | some t => simp [findTriggerIndex, ttlFallback, hmem, h2 t rfl]

/-- C10 witness: a configured name absent from the columns falls back to
the TTL column when present, and errors when TTL is absent too. -/
theorem c10_trigger_fallback_witness :
    (["TTL", "PPG"].contains "TTL" = true →
      findTriggerIndex ["TTL", "PPG"] (some "Trig")
        = Except.ok (["TTL", "PPG"].indexOf "TTL")) ∧
    findTriggerIndex ["PPG", "ECG"] (some "Trig")
      = Except.error (PyErr.valueError ttlErrMsg) :=
  ⟨(c10_trigger_fallback ["TTL", "PPG"] (some "Trig")
      (by intro t ht; injection ht with h2; subst h2; decide)).1,
    (c10_trigger_fallback ["PPG", "ECG"] (some "Trig")
      (by intro t ht; injection ht with h2; subst h2; decide)).2 (by decide)⟩

/-! ### Claim C6 -/

/-- C6 counterexample: with no scanning sheet configured and the middle
run's sidecar lacking the volume count, the expected-volume map holds no
entry at all for ordinal 02 (rather than an entry with a null expected
count), while the following run is still processed under its own original
ordinal 03. -/
theorem c6_missing_metadata_counterexample :
    expectedVolumesAux none
      [{ tr := 2, dcmmeta := some 100 }, { tr := 2, dcmmeta := none },
        { tr := 2, dcmmeta := some 50 }] 0
      = [("01", 100), ("03", 50)] := by decide

/-- C6 amended: with no scanning sheet configured, a run whose sidecar
lacks the volume count is omitted from the expected-volume map entirely
(no entry is recorded under its ordinal), and the remaining runs continue
to be processed, keeping their original ordinals. -/
theorem c6_missing_metadata_amended (bolds : List BoldMeta) (idx : ℕ) :
    expectedVolumesAux none bolds idx
      = (List.enumFrom idx bolds).filterMap
          (fun p => p.2.dcmmeta.map (fun v => (fmt2 (p.1 + 1), v))) := by
  induction bolds generalizing idx with
  | nil => rfl
  | cons b bs ih =>
    cases hb : b.dcmmeta with
    | none => simp [expectedVolumesAux, hb, List.enumFrom, ih (idx + 1)]
    | some v => simp [expectedVolumesAux, hb, List.enumFrom, ih (idx + 1)]

/-! ### Claim C3 -/

/-- A workflow configuration expecting only the trigger channel TTL. -/
def cfgTrigger : List (String × String) := [("trigger", "TTL")]

/-- An acq file whose TTL trace never exceeds the amplitude threshold. -/
def zeroAcq : AcqData := { columns := ["TTL"], channels := [[0, 0, 0]], fs := 1000 }

/-- A session holding only the zero-trigger file. -/
def zeroSession : SessionInput :=
  { name := "ses-001", acqFiles := [zeroAcq],
    bolds := [{ tr := 2, dcmmeta := some 100 }], physFileExists := true }

/-- C3: on a recording with zero pulse events volume_counter itself does
return the placeholder 2-tuple ("No trigger input", columns) without
raising, as the claim says; but the caller unpacks that return into three
variables, raising a ValueError that no handler catches, so get_info
aborts the whole subject pass instead of keeping the session in the report
with the placeholder under recorded_triggers — contradicting both the
claim and the code's own dead placeholder-storing handler
(get_info.py lines 373-375). -/
theorem c3_no_trigger_code_bug :
    volume_counter [zeroAcq] cfgTrigger (trOf zeroSession.bolds) none
      = Except.ok (VCResult.noTrigger ["TTL"]) ∧
    get_info [zeroSession] cfgTrigger true none none
      = Except.error (PyErr.valueError unpackErrMsg) := by decide

/-! ### Claim C4 -/

/-- A workflow configuration expecting a trigger channel TTL and a cardiac
channel PPG. -/
def cfgTwo : List (String × String) := [("trigger", "TTL"), ("cardiac", "PPG")]

/-- An acq file with one trigger pulse whose channel set lacks the
configured PPG channel. -/
def badAcq : AcqData := { columns := ["TTL", "X"], channels := [[5], [0]], fs := 1 }

/-- A session whose only acq file makes order_channels raise. -/
def badSession : SessionInput :=
  { name := "ses-001", acqFiles := [badAcq],
    bolds := [{ tr := 1, dcmmeta := some 10 }], physFileExists := true }

/-- An acq file carrying both configured channels and one trigger pulse. -/
def goodAcq : AcqData := { columns := ["TTL", "PPG"], channels := [[5], [0]], fs := 1 }

/-- A session that processes fine on its own. -/
def goodSession : SessionInput :=
  { name := "ses-002", acqFiles := [goodAcq],
    bolds := [{ tr := 1, dcmmeta := some 10 }], physFileExists := true }

/-- C4 counterexample: the first session's recording lacks the configured
PPG channel, so order_channels raises its ValueError inside
volume_counter; no handler in get_info catches ValueError, so the whole
subject pass aborts and the second session — which succeeds when
processed alone — never reaches the report. -/
theorem c4_session_failure_counterexample :
    get_info [badSession, goodSession] cfgTwo true none none
      = Except.error (PyErr.valueError incompleteMsg) ∧
    get_info [goodSession] cfgTwo true none none
      = Except.ok [("ses-002",
        { vols := [("01", 10)], expected_runs := 1, tr := 1,
          recorded := some (Recorded.dict [("run-01", Entry.int 1)]),
          ch_names := some ["trigger", "cardiac"], chsel := some [1, 2] })] := by
  refine ⟨by decide, ?_⟩
  norm_num +decide [get_info, sessionStep, countVol, sessionBase, trOf,
    volume_counter, vcLoop, findTriggerIndex, ttlFallback, pulseIndices, fileRuns,
    parse_list, parseListAux, trPeriod, roundHalfEven, countOf, runsFrom,
    appendEntry, buildRunDict, expectedVolumesAux, fmt2, order_channels, orderAux,
    matchesOf, goodSession, goodAcq, cfgTwo, Int.fract, List.filter_cons,
    List.enum, List.enumFrom]

/-- C4 amended: only KeyError failures are downgraded to session level; a
Channel Mapper error (a ValueError, raised e.g. when configured channels
are absent from the session's recording) propagates out of get_info,
terminating the whole subject pass with the exception, so the sessions
after the failing one are lost from the report. -/
theorem c4_session_failure_amended (s : SessionInput) (rest : List SessionInput)
    (metadata : List (String × String)) (sheet : Option (ℕ → ℤ))
    (trig : Option String) (m : String)
    (h1 : s.acqFiles.isEmpty = false) (h2 : s.bolds.isEmpty = false)
    (h3 : s.physFileExists = true)
    (h4 : volume_counter s.acqFiles metadata (trOf s.bolds) trig
      = Except.error (PyErr.valueError m)) :
    get_info (s :: rest) metadata true sheet trig
      = Except.error (PyErr.valueError m) := by
  simp [get_info, sessionStep, h1, h2, countVol, h3, h4]

/-- C4 amended witness: the counterexample sessions, via the amended
theorem. -/
theorem c4_session_failure_amended_witness :
    volume_counter badSession.acqFiles cfgTwo (trOf badSession.bolds) none
      = Except.error (PyErr.valueError incompleteMsg) ∧
    get_info [badSession, goodSession] cfgTwo true none none
      = Except.error (PyErr.valueError incompleteMsg) := by
  have h4 : volume_counter badSession.acqFiles cfgTwo (trOf badSession.bolds) none
      = Except.error (PyErr.valueError incompleteMsg) := by decide
  exact ⟨h4, c4_session_failure_amended badSession [goodSession] cfgTwo none none
    incompleteMsg (by decide) (by decide) (by decide) h4⟩

/-! ### Claim C5 -/

/-- An acq file with trigger pulses at samples 0 and 2: their gap exceeds
the window fs * ceil(tr) = 1, so the single file segments into two runs
of one pulse each. -/
def twoRunAcq : AcqData := { columns := ["TTL"], channels := [[5, 0, 5]], fs := 1 }

/-- A session holding only the two-run file. -/
def twoRunSession : SessionInput :=
  { name := "ses-001", acqFiles := [twoRunAcq],
    bolds := [{ tr := 1, dcmmeta := some 10 }], physFileExists := true }

/-- C5 counterexample: the session's single file is segmented into two
runs (counts 1 and 1), but recorded_triggers carries exactly one key,
run-01, mapped to the whole count list rather than one run-NN key per
inferred run each mapped to an integer — the enumerate of get_info.py
line 371 walks the per-file entries of ses_runs[exp], not the runs. -/
theorem c5_recorded_triggers_counterexample :
    fileRuns (pulseIndices [5, 0, 5]) 1 1 = some (Entry.list [1, 1]) ∧
    get_info [twoRunSession] cfgTrigger true none none
      = Except.ok [("ses-001",
        { vols := [("01", 10)], expected_runs := 1, tr := 1,
          recorded := some (Recorded.dict [("run-01", Entry.list [1, 1])]),
          ch_names := some ["trigger"], chsel := some [1] })] := by
  constructor <;>
    norm_num +decide [get_info, sessionStep, countVol, sessionBase, trOf,
      volume_counter, vcLoop, findTriggerIndex, ttlFallback, pulseIndices,
      fileRuns, parse_list, parseListAux, trPeriod, roundHalfEven, countOf,
      runsFrom, appendEntry, buildRunDict, expectedVolumesAux, fmt2,
      order_channels, orderAux, matchesOf, twoRunSession, twoRunAcq, cfgTrigger,
      Int.fract, List.filter_cons, List.enum, List.enumFrom]

/-- C5 amended: recorded_triggers holds one key run-NN per element of the
session's per-file entry list as returned by the Run Segmenter, in order —
so a single-run first file appears as run-01 mapped to an integer, but a
file with several inferred runs contributes a single key mapped to the
whole list of counts, not one key per inferred run. -/
theorem c5_recorded_triggers_amended (s : SessionInput)
    (metadata : List (String × String)) (trig : Option String)
    (sheet : Option (ℕ → ℤ)) (es : List Entry) (ns : List String) (sel : List ℕ)
    (h1 : s.acqFiles.isEmpty = false) (h2 : s.bolds.isEmpty = false)
    (h3 : s.physFileExists = true)
    (h4 : volume_counter s.acqFiles metadata (trOf s.bolds) trig
      = Except.ok (VCResult.counted (some es) ns sel)) :
    get_info [s] metadata true sheet trig
      = Except.ok [(s.name,
        { sessionBase sheet s with
          recorded := some (Recorded.dict
            (es.enum.map (fun p => ("run-" ++ fmt2 (p.1 + 1), p.2))))
          ch_names := some ns
          chsel := some sel })] := by
  simp [get_info, sessionStep, h1, h2, countVol, h3, h4, buildRunDict]

/-- C5 amended witness: the two-run session, via the amended theorem. -/
theorem c5_recorded_triggers_amended_witness :
    volume_counter twoRunSession.acqFiles cfgTrigger (trOf twoRunSession.bolds) none
      = Except.ok (VCResult.counted (some [Entry.list [1, 1]]) ["trigger"] [1]) ∧
    get_info [twoRunSession] cfgTrigger true none none
      = Except.ok [(twoRunSession.name,
        { sessionBase none twoRunSession with
          recorded := some (Recorded.dict
            (([Entry.list [1, 1]] : List Entry).enum.map
              (fun p => ("run-" ++ fmt2 (p.1 + 1), p.2))))
          ch_names := some ["trigger"]
          chsel := some [1] })] := by
  have h4 : volume_counter twoRunSession.acqFiles cfgTrigger
      (trOf twoRunSession.bolds) none
      = Except.ok (VCResult.counted (some [Entry.list [1, 1]]) ["trigger"] [1]) := by
    norm_num +decide [volume_counter, vcLoop, findTriggerIndex, ttlFallback,
      pulseIndices, fileRuns, parse_list, parseListAux, trPeriod, roundHalfEven,
      countOf, runsFrom, appendEntry, order_channels, orderAux, matchesOf,
      twoRunSession, twoRunAcq, cfgTrigger, trOf, Int.fract,
      List.filter_cons, List.enum, List.enumFrom]
  exact ⟨h4, c5_recorded_triggers_amended twoRunSession cfgTrigger none none
    [Entry.list [1, 1]] ["trigger"] [1] (by decide) (by decide) (by decide) h4⟩

end Physprep
